import Mathlib

/-!
# GreenMind quiz pipeline — shallow embedding

Shallow embedding of the quiz scoring and submission-validation pipeline of
the GreenMind repository, together with theorems settling the claims about
it.

Embedded source:
* `public/js/quiz.js` — `QuizQuestion` (constructor, `setUserAnswer`,
  `isCorrect`), `QuizManager.handleAnswerChange`,
  `QuizManager.calculateResults`, `QuizManager.getPerformanceMessage`,
  and the `QUIZ_QUESTIONS` bank.
* `src/middleware/validation.js` — `ValidationMiddleware.validateQuizSubmission`.
* `src/models/QuizResult.js` — `getPerformanceLevel`,
  `getPerformanceMessage`, `getScoreDistribution` (its `$bucket` stage).
* the quiz controller (`QuizController.getLeaderboard`) — the
  `.sort(\x7b score: -1, timeTaken: 1 \x7d)` leaderboard ordering.

Modelling conventions:
* JavaScript numbers are modelled as exact rationals (`ℚ`).  `Math.round`
  on a finite double is "round half toward +∞", modelled by
  `jsRound q = ⌊q + 1/2⌋`.  Every claim below compares a score against the
  *same* embedded expression the code computes, so this idealisation is
  uniform on both sides of each comparison.
* Non-finite doubles (`NaN`, `Infinity`) arising from `0/0` and `c/0` are
  modelled explicitly where they can occur (empty question list, zero
  `totalQuestions`); JavaScript comparisons with `NaN` are `false`.
* Values of arbitrary JavaScript type (a request body field may hold
  anything) are modelled by `JsValue`, distinguishing exactly what
  `validateQuizSubmission` distinguishes: `undefined`, `null`, a non-number
  value, a non-finite number, and a finite number.
-/

/-- JavaScript `Math.round` on a finite value: round half toward +∞. -/
def jsRound (q : ℚ) : ℤ := ⌊q + 1/2⌋

/-- Evaluation helper for `jsRound` at concrete rationals. -/
lemma jsRound_eq {q : ℚ} {z : ℤ} (h1 : (z : ℚ) ≤ q + 1/2) (h2 : q + 1/2 < z + 1) :
    jsRound q = z := by
  unfold jsRound
  rw [Int.floor_eq_iff]
  exact ⟨h1, by exact_mod_cast h2⟩

/-! ## Client side: `public/js/quiz.js` -/

/-- One quiz question, as built by the `QuizQuestion` constructor: the data
fields of a `QUIZ_QUESTIONS` entry plus the mutable answer state
(`userAnswer = null`, `isAnswered = false` initially).  The `explanation`
string is omitted: no claim mentions it. -/
structure QuizQuestion where
  id : ℤ
  category : String
  question : String
  options : List String
  correctAnswer : ℤ
  difficulty : String
  userAnswer : Option ℤ := none
  isAnswered : Bool := false
deriving DecidableEq

/-- `QuizQuestion.setUserAnswer(answerIndex)`: stores the index and marks the
question answered.  The source performs no range check on `answerIndex`. -/
def QuizQuestion.setUserAnswer (q : QuizQuestion) (answerIndex : ℤ) : QuizQuestion :=
  { q with userAnswer := some answerIndex, isAnswered := true }

/-- `QuizQuestion.isCorrect()`: `this.isAnswered && this.userAnswer === this.correctAnswer`
(`null === number` is `false`). -/
def QuizQuestion.isCorrect (q : QuizQuestion) : Bool :=
  q.isAnswered && q.userAnswer == some q.correctAnswer

/-- `QuizManager.handleAnswerChange`: find the first question with the given
id and call `setUserAnswer` on it with the parsed index; again no range
check. -/
def handleAnswerChange : List QuizQuestion → ℤ → ℤ → List QuizQuestion
  | [], _, _ => []
  | q :: rest, questionId, answerIndex =>
    if q.id = questionId then q.setUserAnswer answerIndex :: rest
    else q :: handleAnswerChange rest questionId answerIndex

/-- The `QUIZ_QUESTIONS` array (answer state at its constructed defaults). -/
def QUIZ_QUESTIONS : List QuizQuestion :=
  [ { id := 1, category := "Recycling",
      question := "What color recycling bin is typically used for paper and cardboard?",
      options := ["Green bin", "Blue bin", "Yellow bin", "Red bin"],
      correctAnswer := 1, difficulty := "easy" },
    { id := 2, category := "Energy Conservation",
      question := "Which type of light bulb uses the least amount of energy?",
      options := ["Incandescent bulbs", "Halogen bulbs", "CFL bulbs", "LED bulbs"],
      correctAnswer := 3, difficulty := "easy" },
    { id := 3, category := "Water Conservation",
      question := "How much water can a dripping faucet waste per year?",
      options := ["100 gallons", "500 gallons", "1,000 gallons", "3,000+ gallons"],
      correctAnswer := 3, difficulty := "medium" },
    { id := 4, category := "Climate Change",
      question := "What is the main greenhouse gas responsible for climate change?",
      options := ["Oxygen (O2)", "Carbon Dioxide (CO2)", "Nitrogen (N2)", "Hydrogen (H2)"],
      correctAnswer := 1, difficulty := "easy" },
    { id := 5, category := "Recycling",
      question := "Which of these items should NOT be put in regular recycling bins?",
      options := ["Clean pizza boxes", "Plastic bottles", "Batteries", "Aluminum cans"],
      correctAnswer := 2, difficulty := "medium" },
    { id := 6, category := "Energy Conservation",
      question := "What percentage of home energy can be saved by properly sealing air leaks?",
      options := ["5-10%", "10-20%", "20-30%", "30-40%"],
      correctAnswer := 1, difficulty := "medium" },
    { id := 7, category := "Water Conservation",
      question := "What is the average amount of water used in a 10-minute shower?",
      options := ["15-25 gallons", "25-35 gallons", "35-45 gallons", "45-55 gallons"],
      correctAnswer := 1, difficulty := "medium" },
    { id := 8, category := "Climate Change",
      question := "How much has the global average temperature increased since 1880?",
      options := ["0.5°C (0.9°F)", "1.1°C (2°F)", "2.0°C (3.6°F)", "3.0°C (5.4°F)"],
      correctAnswer := 1, difficulty := "hard" },
    { id := 9, category := "Recycling",
      question := "What percentage of plastic waste is actually recycled globally?",
      options := ["Less than 10%", "10-20%", "20-30%", "More than 50%"],
      correctAnswer := 0, difficulty := "hard" },
    { id := 10, category := "Energy Conservation",
      question := "Which home appliance typically uses the most electricity?",
      options := ["Refrigerator", "Washing machine", "Air conditioning/heating system", "Television"],
      correctAnswer := 2, difficulty := "medium" } ]

/-- A `{correct, total}` pair of `categoryScores`. -/
structure CategoryStat where
  correct : ℕ
  total : ℕ
deriving DecidableEq

/-- One loop step of `calculateResults` on the category object: create the
entry `{correct: 0, total: 0}` if absent, increment `total`, and increment
`correct` iff the question was correct.  The JavaScript object is modelled
as an association list in insertion order. -/
def bumpCategory : List (String × CategoryStat) → String → Bool → List (String × CategoryStat)
  | [], category, isC => [(category, ⟨if isC then 1 else 0, 1⟩)]
  | (k, v) :: rest, category, isC =>
    if k = category then
      (k, ⟨v.correct + (if isC then 1 else 0), v.total + 1⟩) :: rest
    else
      (k, v) :: bumpCategory rest category isC

/-- One step of the `this.questions.forEach` loop of `calculateResults`:
increment `correctAnswers` iff correct, then update the category object. -/
def tallyStep (acc : ℕ × List (String × CategoryStat)) (q : QuizQuestion) :
    ℕ × List (String × CategoryStat) :=
  (acc.1 + (if q.isCorrect then 1 else 0), bumpCategory acc.2 q.category q.isCorrect)

/-- A JavaScript number that may be non-finite: `Math.round((c/t)*100)` is
`NaN` when `t = 0 ∧ c = 0` and `Infinity` when `t = 0 ∧ c ≠ 0`. -/
inductive JsNum where
  | nan
  | inf
  | val (z : ℤ)
deriving DecidableEq

/-- The fields of the object returned by `QuizManager.calculateResults` that
the claims mention (`timeTaken`, `detailedResults` and `completedAt` are
omitted). -/
structure QuizResults where
  score : JsNum
  correctAnswers : ℕ
  totalQuestions : ℕ
  categoryScores : List (String × CategoryStat)
deriving DecidableEq

/-- `QuizManager.calculateResults`: tally correct answers and per-category
stats over all questions, then `score = Math.round((correctAnswers / totalQuestions) * 100)`. -/
def calculateResults (questions : List QuizQuestion) : QuizResults :=
  let acc := questions.foldl tallyStep (0, [])
  let correctAnswers := acc.1
  let totalQuestions := questions.length
  { score :=
      if totalQuestions = 0 then (if correctAnswers = 0 then .nan else .inf)
      else .val (jsRound ((correctAnswers : ℚ) / (totalQuestions : ℚ) * 100)),
    correctAnswers := correctAnswers,
    totalQuestions := totalQuestions,
    categoryScores := acc.2 }

/-- `QuizManager.getPerformanceMessage(score)` (client side). -/
def getPerformanceMessage (score : ℤ) : String :=
  if score ≥ 90 then
    "Outstanding! You're an environmental champion! 🌟"
  else if score ≥ 80 then
    "Excellent work! You have great environmental knowledge! 🌱"
  else if score ≥ 70 then
    "Good job! You're on the right track with environmental awareness! 👍"
  else if score ≥ 60 then
    "Not bad! Keep learning about environmental conservation! 📚"
  else
    "There's room for improvement. Check out our Learn page for more info! 💪"

/-! ## Server side: `src/models/QuizResult.js` -/

/-- `quizResultSchema.methods.getPerformanceLevel`. -/
def getPerformanceLevel (score : ℤ) : String :=
  if score ≥ 90 then "excellent"
  else if score ≥ 80 then "good"
  else if score ≥ 70 then "fair"
  else if score ≥ 60 then "needs_improvement"
  else "poor"

/-- The `messages` object of `quizResultSchema.methods.getPerformanceMessage`. -/
def performanceMessages : List (String × String) :=
  [ ("excellent", "Outstanding! You're an environmental champion! 🌟"),
    ("good", "Excellent work! You have great environmental knowledge! 🌱"),
    ("fair", "Good job! You're on the right track with environmental awareness! 👍"),
    ("needs_improvement", "Not bad! Keep learning about environmental conservation! 📚"),
    ("poor", "There's room for improvement. Check out our Learn page for more info! 💪") ]

/-- `quizResultSchema.methods.getPerformanceMessage`: look the level up in
the `messages` object (`undefined`, i.e. `none`, on a missing key). -/
def serverGetPerformanceMessage (score : ℤ) : Option String :=
  performanceMessages.lookup (getPerformanceLevel score)

/-- Where a score lands in `getScoreDistribution`: one of the `$bucket`
buckets (identified by its lower boundary) or the `default` bucket. -/
inductive ScoreBucket where
  | bucket (lo : ℤ)
  | other
deriving DecidableEq

/-- The `boundaries` array of the `$bucket` stage of
`quizResultSchema.statics.getScoreDistribution`. -/
def bucketBoundaries : List ℤ := [0, 20, 40, 60, 80, 100]

/-- MongoDB `$bucket` assignment (modelled from the documented operator
semantics: a value belongs to the bucket whose inclusive lower boundary and
exclusive upper boundary enclose it; values outside every bucket go to the
`default` bucket). -/
def assignBucket : List ℤ → ℤ → ScoreBucket
  | lo :: hi :: rest, s => if lo ≤ s ∧ s < hi then .bucket lo else assignBucket (hi :: rest) s
  | _, _ => .other

/-- The bucket `getScoreDistribution` counts a persisted `score` in. -/
def bucketFor (score : ℤ) : ScoreBucket := assignBucket bucketBoundaries score

/-! ## Leaderboard: `QuizController.getLeaderboard` -/

/-- The two persisted fields the leaderboard sort key reads. -/
structure PersistedResult where
  score : ℤ
  timeTaken : ℤ
deriving DecidableEq

/-- The MongoDB sort specification `\x7b score: -1, timeTaken: 1 \x7d`: `a`
may precede `b` iff `a` has the larger score, or equal scores and
`a.timeTaken ≤ b.timeTaken`. -/
def leaderboardLe (a b : PersistedResult) : Bool :=
  b.score < a.score || (a.score == b.score && a.timeTaken ≤ b.timeTaken)

/-- `QuizController.getLeaderboard`: the matching results sorted by
`score` descending then `timeTaken` ascending, truncated to `limit`. -/
def getLeaderboard (limit : ℕ) (results : List PersistedResult) : List PersistedResult :=
  (results.mergeSort leaderboardLe).take limit

/-! ## Validation middleware: `src/middleware/validation.js` -/

/-- A request-body field value, distinguished exactly as far as
`validateQuizSubmission` distinguishes JavaScript values: `undefined`,
`null`, a value of non-number type, a non-finite number (`NaN` or
`±Infinity`, for which `Number.isInteger` is `false` and every `<`/`>`
comparison is `false`), or a finite number as an exact rational. -/
inductive JsValue where
  | undef
  | null
  | nonNumber
  | nonFinite
  | num (q : ℚ)
deriving DecidableEq

/-- `typeof v === 'number'`. -/
def JsValue.isNumber : JsValue → Bool
  | .nonFinite => true
  | .num _ => true
  | _ => false

/-- `Number.isInteger(v)`. -/
def JsValue.isInteger : JsValue → Bool
  | .num q => q.den == 1
  | _ => false

/-- The `errors.score` message produced by the structural score checks
(the cross-validation step is separate, see `crossCheckMismatch`). -/
def scoreError : JsValue → Option String
  | .num q =>
    if q.den ≠ 1 then some "Score must be a whole number"
    else if q < 0 ∨ q > 100 then some "Score must be between 0 and 100"
    else none
  | .nonFinite => some "Score must be a whole number"
  | _ => some "Score must be a number"

/-- The `errors.totalQuestions` message. -/
def totalQuestionsError : JsValue → Option String
  | .num q =>
    if q.den ≠ 1 then some "Total questions must be a whole number"
    else if q < 1 ∨ q > 50 then some "Total questions must be between 1 and 50"
    else none
  | .nonFinite => some "Total questions must be a whole number"
  | _ => some "Total questions must be a number"

/-- The `errors.correctAnswers` message; the upper-bound check compares
against `totalQuestions` only when that is itself of number type, and a
comparison against `NaN` is `false`. -/
def correctAnswersError : JsValue → JsValue → Option String
  | .num q, total =>
    if q.den ≠ 1 then some "Correct answers must be a whole number"
    else if q < 0 then some "Correct answers cannot be negative"
    else
      match total with
      | .num t => if q > t then some "Correct answers cannot exceed total questions" else none
      | _ => none
  | .nonFinite, _ => some "Correct answers must be a whole number"
  | _, _ => some "Correct answers must be a number"

/-- The `errors.timeTaken` message: the whole check is skipped when the
field is `undefined` or `null`. -/
def timeTakenError : JsValue → Option String
  | .undef => none
  | .null => none
  | .num q =>
    if q.den ≠ 1 then some "Time taken must be a whole number of seconds"
    else if q < 1 then some "Time taken must be at least 1 second"
    else if q > 3600 then some "Time taken cannot exceed 1 hour"
    else none
  | .nonFinite => some "Time taken must be a whole number of seconds"
  | .nonNumber => some "Time taken must be a number"

/-- The value of one entry of the `categories` object: either a falsy or
non-object value (failing `!stats || typeof stats !== 'object'`) or an
object carrying `correct` and `total` fields. -/
inductive JsStats where
  | invalid
  | stats (correct total : JsValue)
deriving DecidableEq

/-- The `categories` field of the body: `undefined`, `null`, a non-object
value, or an object as an association list in property order. -/
inductive JsCategories where
  | undef
  | null
  | nonObject
  | obj (entries : List (String × JsStats))
deriving DecidableEq

/-- `a > b` on two field values, as JavaScript evaluates it where the code
has already established both are of number type (`NaN` compares `false`). -/
def jsGt : JsValue → JsValue → Bool
  | .num a, .num b => a > b
  | _, _ => false

/-- `v < c` against a numeric literal (`NaN` compares `false`). -/
def jsLtLit (v : JsValue) (c : ℚ) : Bool :=
  match v with
  | .num a => a < c
  | _ => false

/-- The error message for one `[category, stats]` entry of the loop body,
`none` when the entry passes. -/
def categoryEntryError (category : String) (s : JsStats) : Option String :=
  match s with
  | .invalid => some ("Invalid category stats for " ++ category)
  | .stats correct total =>
    if ¬correct.isNumber ∨ ¬total.isNumber then
      some ("Category " ++ category ++ " must have numeric correct and total values")
    else if jsGt correct total ∨ jsLtLit correct 0 ∨ jsLtLit total 1 then
      some ("Invalid stats for " ++ "category " ++ category)
    else none

/-- The `for … of Object.entries(categories)` loop: the first failing entry
sets `errors.categories` and breaks. -/
def categoryEntriesError : List (String × JsStats) → Option String
  | [] => none
  | (category, s) :: rest =>
    match categoryEntryError category s with
    | some e => some e
    | none => categoryEntriesError rest

/-- The `errors.categories` message: skipped for `undefined`/`null`,
type-checked, then the per-entry loop. -/
def categoriesError : JsCategories → Option String
  | .undef => none
  | .null => none
  | .nonObject => some "Categories must be an object"
  | .obj entries => categoryEntriesError entries

/-- `Math.round((correctAnswers / totalQuestions) * 100)` of the
cross-validation step, on finite inputs. -/
def calculatedScore (correctAnswers totalQuestions : ℚ) : ℤ :=
  jsRound (correctAnswers / totalQuestions * 100)

/-- Whether the cross-validation step fires: it runs whenever all of
`score`, `totalQuestions`, `correctAnswers` are of number type, and sets
`errors.score` iff `Math.abs(score - calculatedScore) > 1`.  With a zero
`totalQuestions` the quotient is `±Infinity` (mismatch fires against any
finite score) or `NaN` (comparison false); any `NaN` operand also makes the
comparison false. -/
def crossCheckMismatch (score totalQuestions correctAnswers : JsValue) : Bool :=
  match score, totalQuestions, correctAnswers with
  | .num s, .num t, .num c =>
    if t = 0 then c ≠ 0
    else 1 < |s - (calculatedScore c t : ℚ)|
  | _, _, _ => false

/-- The submitted quiz body, destructured as in the middleware. -/
structure QuizSubmissionBody where
  score : JsValue
  totalQuestions : JsValue
  correctAnswers : JsValue
  timeTaken : JsValue
  categories : JsCategories
deriving DecidableEq

/-- The `errors` object after all checks ran (one optional message per
field, as the code only ever assigns to these five keys). -/
structure QuizErrors where
  score : Option String := none
  totalQuestions : Option String := none
  correctAnswers : Option String := none
  timeTaken : Option String := none
  categories : Option String := none
deriving DecidableEq

/-- The `errors` object `validateQuizSubmission` builds: the structural
checks in order, with the cross-validation step overwriting `errors.score`
when it fires. -/
def validateErrors (b : QuizSubmissionBody) : QuizErrors :=
  { score :=
      if crossCheckMismatch b.score b.totalQuestions b.correctAnswers then
        some "Score does not match the correct answers and total questions"
      else scoreError b.score,
    totalQuestions := totalQuestionsError b.totalQuestions,
    correctAnswers := correctAnswersError b.correctAnswers b.totalQuestions,
    timeTaken := timeTakenError b.timeTaken,
    categories := categoriesError b.categories }

/-- `Object.keys(errors).length === 0`. -/
def QuizErrors.isEmpty (e : QuizErrors) : Bool :=
  e.score == none && e.totalQuestions == none && e.correctAnswers == none &&
    e.timeTaken == none && e.categories == none

/-- The middleware's outcome: respond 400 with the errors object, or call
`next()`. -/
inductive ValidationOutcome where
  | reject (errors : QuizErrors)
  | next
deriving DecidableEq

/-- `ValidationMiddleware.validateQuizSubmission`. -/
def validateQuizSubmission (b : QuizSubmissionBody) : ValidationOutcome :=
  if (validateErrors b).isEmpty then .next else .reject (validateErrors b)

/-- The five body fields the middleware checks. -/
inductive QField where
  | score
  | totalQuestions
  | correctAnswers
  | timeTaken
  | categories
deriving DecidableEq

/-- The structural (pre-cross-validation) error of one field. -/
def structuralError (b : QuizSubmissionBody) : QField → Option String
  | .score => scoreError b.score
  | .totalQuestions => totalQuestionsError b.totalQuestions
  | .correctAnswers => correctAnswersError b.correctAnswers b.totalQuestions
  | .timeTaken => timeTakenError b.timeTaken
  | .categories => categoriesError b.categories

/-- Projection of the built errors object at a field. -/
def QuizErrors.field (e : QuizErrors) : QField → Option String
  | .score => e.score
  | .totalQuestions => e.totalQuestions
  | .correctAnswers => e.correctAnswers
  | .timeTaken => e.timeTaken
  | .categories => e.categories

/-! ## Theorems -/

/-- Helper: the `correct` count of an optional category entry. -/
def statCorrect (o : Option CategoryStat) : ℕ :=
  match o with
  | none => 0
  | some s => s.correct

/-- Helper: the `total` count of an optional category entry. -/
def statTotal (o : Option CategoryStat) : ℕ :=
  match o with
  | none => 0
  | some s => s.total

/-- C4 counterexample: on the first bank question (4 options), selecting the
out-of-range option index 99 does not fail: `setUserAnswer` records the
index and marks the question answered. -/
theorem setUserAnswer_no_range_check_cex :
    (QuizQuestion.setUserAnswer
        { id := 1, category := "Recycling",
          question := "What color recycling bin is typically used for paper and cardboard?",
          options := ["Green bin", "Blue bin", "Yellow bin", "Red bin"],
          correctAnswer := 1, difficulty := "easy" } 99).isAnswered = true ∧
    (QuizQuestion.setUserAnswer
        { id := 1, category := "Recycling",
          question := "What color recycling bin is typically used for paper and cardboard?",
          options := ["Green bin", "Blue bin", "Yellow bin", "Red bin"],
          correctAnswer := 1, difficulty := "easy" } 99).userAnswer = some 99 ∧
    ¬((99 : ℤ) <
      (({ id := 1, category := "Recycling",
          question := "What color recycling bin is typically used for paper and cardboard?",
          options := ["Green bin", "Blue bin", "Yellow bin", "Red bin"],
          correctAnswer := 1, difficulty := "easy" } : QuizQuestion).options.length : ℤ)) := by
  refine ⟨rfl, rfl, by decide⟩

/-- C4 amended: `setUserAnswer` performs no range check at all — for every
question and every option index, valid or not, it sets the selected index
and marks the question answered. -/
theorem setUserAnswer_sets_unconditionally (q : QuizQuestion) (i : ℤ) :
    (q.setUserAnswer i).userAnswer = some i ∧ (q.setUserAnswer i).isAnswered = true :=
  ⟨rfl, rfl⟩

/-- C5 counterexample: on an empty item list `calculateResults` does not
fail fast; it returns a full result whose `score` is the `NaN` of the `0/0`
quotient. -/
theorem calculateResults_empty_no_failfast_cex :
    calculateResults [] =
      { score := JsNum.nan, correctAnswers := 0, totalQuestions := 0, categoryScores := [] } :=
  rfl

/-- C5 amended: the Score Calculator never fails fast; on an empty item
list it divides zero by zero, and its `score` is `NaN` exactly for the
empty list. -/
theorem calculateResults_score_nan_iff_empty (qs : List QuizQuestion) :
    (calculateResults qs).score = JsNum.nan ↔ qs = [] := by
  cases qs with
  | nil => simp [calculateResults]
  | cons q rest =>
    simp [calculateResults]

/-- C9: for every integer score in `[0,100]` the client-side
`getPerformanceMessage` and the server-side
`getPerformanceLevel`/`getPerformanceMessage` pair produce the identical
message string, both cutting at 90, 80, 70 and 60. -/
theorem performance_messages_agree (score : ℤ) (h0 : 0 ≤ score) (h100 : score ≤ 100) :
    serverGetPerformanceMessage score = some (getPerformanceMessage score) := by
  unfold serverGetPerformanceMessage getPerformanceLevel getPerformanceMessage
  split_ifs <;> rfl

/-- C9 witness at score 85. -/
theorem performance_messages_agree_witness :
    serverGetPerformanceMessage 85 = some (getPerformanceMessage 85) :=
  performance_messages_agree 85 (by decide) (by decide)

/-- C6 counterexample: a persisted score of exactly 100 is not counted in
the `[80,100]` bucket: the `$bucket` stage assigns it to the `default`
bucket `other`. -/
theorem bucket_100_goes_to_other_cex :
    bucketFor 100 = ScoreBucket.other ∧ ScoreBucket.other ≠ ScoreBucket.bucket 80 := by
  exact ⟨rfl, by decide⟩

/-- C6 amended: a score in `[0,100)` is assigned to exactly one of the five
buckets `[0,20) [20,40) [40,60) [60,80) [80,100)` (namely the one whose
lower boundary is `20 * (score / 20)`), while a score of exactly 100 falls
outside every bucket and is counted in the `default` bucket `other`. -/
theorem bucket_assignment_amended (s : ℤ) (h0 : 0 ≤ s) (h100 : s ≤ 100) :
    (s < 100 → bucketFor s = ScoreBucket.bucket (20 * (s / 20))) ∧
    (s = 100 → bucketFor s = ScoreBucket.other) := by
  constructor
  · intro hlt
    interval_cases s <;> decide
  · intro h
    subst h
    decide

/-- C6 witness at scores 37 and 100. -/
theorem bucket_assignment_witness :
    ((37 : ℤ) < 100 → bucketFor 37 = ScoreBucket.bucket (20 * (37 / 20))) ∧
    ((37 : ℤ) = 100 → bucketFor 37 = ScoreBucket.other) :=
  bucket_assignment_amended 37 (by decide) (by decide)

/-- C2: for every non-empty question list, the score `calculateResults`
returns is exactly `Math.round((correctAnswers / totalQuestions) * 100)`
of its own correct and total counts — no tolerance. -/
theorem score_eq_round_of_counts (qs : List QuizQuestion) (h : qs ≠ []) :
    (calculateResults qs).score =
      JsNum.val (jsRound (((calculateResults qs).correctAnswers : ℚ) /
        ((calculateResults qs).totalQuestions : ℚ) * 100)) := by
  have hlen : qs.length ≠ 0 := by simpa using h
  simp [calculateResults, hlen]

/-- C2 witness: the full question bank. -/
theorem score_eq_round_of_counts_witness :
    (calculateResults QUIZ_QUESTIONS).score =
      JsNum.val (jsRound (((calculateResults QUIZ_QUESTIONS).correctAnswers : ℚ) /
        ((calculateResults QUIZ_QUESTIONS).totalQuestions : ℚ) * 100)) :=
  score_eq_round_of_counts QUIZ_QUESTIONS (by decide)
/-- Looking up the bumped category: `total` goes up by one and `correct` by
one iff the question was correct, starting from `{correct: 0, total: 0}`
when the category was absent. -/
lemma lookup_bumpCategory_self (l : List (String × CategoryStat)) (cat : String) (isC : Bool) :
    (bumpCategory l cat isC).lookup cat =
      some ⟨statCorrect (l.lookup cat) + (if isC then 1 else 0),
            statTotal (l.lookup cat) + 1⟩ := by
  induction l with
  | nil => simp [bumpCategory, statCorrect, statTotal]
  | cons kv rest ih =>
    obtain ⟨k, v⟩ := kv
    by_cases hk : k = cat
    · subst hk
      simp [bumpCategory, List.lookup, statCorrect, statTotal]
    · have hbeq : (cat == k) = false := by simp [Ne.symm hk]
      simp [bumpCategory, hk, List.lookup, hbeq, ih]

/-- Bumping one category leaves every other category entry unchanged. -/
lemma lookup_bumpCategory_ne (l : List (String × CategoryStat)) (cat cat' : String)
    (isC : Bool) (h : cat' ≠ cat) :
    (bumpCategory l cat isC).lookup cat' = l.lookup cat' := by
  induction l with
  | nil =>
    have hbeq : (cat' == cat) = false := by simp [h]
    simp [bumpCategory, List.lookup, hbeq]
  | cons kv rest ih =>
    obtain ⟨k, v⟩ := kv
    by_cases hk : k = cat
    · subst hk
      have hbeq : (cat' == k) = false := by simp [h]
      simp [bumpCategory, List.lookup, hbeq]
    · by_cases hk' : cat' = k
      · subst hk'
        simp [bumpCategory, hk, List.lookup]
      · have hbeq : (cat' == k) = false := by simp [hk']
        simp [bumpCategory, hk, List.lookup, hbeq, ih]

/-- The running `correctAnswers` counter of the `forEach` loop counts the
questions for which `isCorrect()` held. -/
lemma foldl_tallyStep_fst (qs : List QuizQuestion) :
    ∀ acc : ℕ × List (String × CategoryStat),
      (qs.foldl tallyStep acc).1 = acc.1 + qs.countP (·.isCorrect) := by
  induction qs with
  | nil => intro acc; simp
  | cons q rest ih =>
    intro acc
    rw [List.foldl_cons, ih, List.countP_cons]
    simp only [tallyStep]
    by_cases hq : q.isCorrect <;> simp [hq] <;> omega

/-- The running category object of the `forEach` loop: every question
increments its own category's `total`. -/
lemma foldl_tallyStep_total (qs : List QuizQuestion) :
    ∀ (acc : ℕ × List (String × CategoryStat)) (cat : String),
      statTotal (((qs.foldl tallyStep acc).2).lookup cat) =
        statTotal (acc.2.lookup cat) + qs.countP (fun q => q.category == cat) := by
  induction qs with
  | nil => intro acc cat; simp
  | cons q rest ih =>
    intro acc cat
    rw [List.foldl_cons, ih, List.countP_cons]
    simp only [tallyStep]
    by_cases hc : q.category = cat
    · subst hc
      rw [lookup_bumpCategory_self]
      simp [statTotal]
      omega
    · rw [lookup_bumpCategory_ne _ _ _ _ (Ne.symm hc)]
      simp [hc]

/-- The running category object of the `forEach` loop: a question
increments its own category's `correct` iff `isCorrect()` held. -/
lemma foldl_tallyStep_correct (qs : List QuizQuestion) :
    ∀ (acc : ℕ × List (String × CategoryStat)) (cat : String),
      statCorrect (((qs.foldl tallyStep acc).2).lookup cat) =
        statCorrect (acc.2.lookup cat) +
          qs.countP (fun q => q.category == cat && q.isCorrect) := by
  induction qs with
  | nil => intro acc cat; simp
  | cons q rest ih =>
    intro acc cat
    rw [List.foldl_cons, ih, List.countP_cons]
    simp only [tallyStep]
    by_cases hc : q.category = cat
    · subst hc
      rw [lookup_bumpCategory_self]
      by_cases hq : q.isCorrect <;> simp [statCorrect, hq] <;> omega
    · rw [lookup_bumpCategory_ne _ _ _ _ (Ne.symm hc)]
      simp [hc]

/-- C3: `calculateResults` counts a question as correct iff it is answered
with the correct option index; its `correctAnswers` is the number of such
questions; each category's `total` counts all questions of that category
while its `correct` counts only the correct ones (so an unanswered question
contributes to its category's total but never to its correct count); and a
non-empty session with no answered question still yields a result with
score 0. -/
theorem calculateResults_counting (qs : List QuizQuestion) :
    (∀ q ∈ qs, q.isCorrect = true ↔ q.isAnswered = true ∧ q.userAnswer = some q.correctAnswer)
    ∧ (calculateResults qs).correctAnswers = qs.countP (·.isCorrect)
    ∧ (∀ cat : String,
        statTotal (((calculateResults qs).categoryScores).lookup cat) =
          qs.countP (fun q => q.category == cat)
        ∧ statCorrect (((calculateResults qs).categoryScores).lookup cat) =
          qs.countP (fun q => q.category == cat && q.isCorrect))
    ∧ (qs ≠ [] → (∀ q ∈ qs, q.isAnswered = false) →
        (calculateResults qs).score = JsNum.val 0) := by
  refine ⟨?_, ?_, ?_, ?_⟩
  · intro q _
    simp [QuizQuestion.isCorrect]
  · simpa using foldl_tallyStep_fst qs (0, [])
  · intro cat
    constructor
    · simpa [calculateResults, statTotal] using foldl_tallyStep_total qs (0, []) cat
    · simpa [calculateResults, statCorrect] using foldl_tallyStep_correct qs (0, []) cat
  · intro hne hunans
    have hcount : qs.countP (·.isCorrect) = 0 := by
      rw [List.countP_eq_zero]
      intro q hq
      simp [QuizQuestion.isCorrect, hunans q hq]
    have hfst : (qs.foldl tallyStep (0, [])).1 = 0 := by
      rw [foldl_tallyStep_fst qs (0, [])]
      simpa using hcount
    have hlen : qs.length ≠ 0 := by simpa using hne
    simp only [calculateResults, hfst, hlen, if_false]
    norm_num
    exact jsRound_eq (by norm_num) (by norm_num)
/-- `next()` is called iff every key of the errors object is absent. -/
lemma validate_next_iff (b : QuizSubmissionBody) :
    validateQuizSubmission b = ValidationOutcome.next ↔
      ((validateErrors b).score = none ∧ (validateErrors b).totalQuestions = none ∧
       (validateErrors b).correctAnswers = none ∧ (validateErrors b).timeTaken = none ∧
       (validateErrors b).categories = none) := by
  unfold validateQuizSubmission
  split_ifs with h
  · simp only [QuizErrors.isEmpty, Bool.and_eq_true, beq_iff_eq] at h
    obtain ⟨⟨⟨⟨h1, h2⟩, h3⟩, h4⟩, h5⟩ := h
    simp [h1, h2, h3, h4, h5]
  · simp only [QuizErrors.isEmpty, Bool.and_eq_true, beq_iff_eq] at h
    constructor
    · intro hcon
      exact absurd hcon (by simp)
    · rintro ⟨h1, h2, h3, h4, h5⟩
      exact absurd ⟨⟨⟨⟨h1, h2⟩, h3⟩, h4⟩, h5⟩ h

/-- An errors object with an empty key set has no entry at any field. -/
lemma QuizErrors.isEmpty_field {e : QuizErrors} (h : e.isEmpty = true) (f : QField) :
    e.field f = none := by
  simp only [QuizErrors.isEmpty, Bool.and_eq_true, beq_iff_eq] at h
  obtain ⟨⟨⟨⟨h1, h2⟩, h3⟩, h4⟩, h5⟩ := h
  cases f <;> simp [QuizErrors.field, h1, h2, h3, h4, h5]

/-- A field whose structural check fails keeps an entry in the final errors
object (the cross-validation step can only overwrite the `score` message
with another message, never remove the key). -/
lemma field_error_of_structural (b : QuizSubmissionBody) (f : QField)
    (hf : structuralError b f ≠ none) : (validateErrors b).field f ≠ none := by
  cases f with
  | score =>
    simp only [validateErrors, QuizErrors.field]
    split
    · simp
    · simpa [structuralError] using hf
  | totalQuestions => simpa [validateErrors, QuizErrors.field, structuralError] using hf
  | correctAnswers => simpa [validateErrors, QuizErrors.field, structuralError] using hf
  | timeTaken => simpa [validateErrors, QuizErrors.field, structuralError] using hf
  | categories => simpa [validateErrors, QuizErrors.field, structuralError] using hf

/-- C8: when two (or, by instantiating the pair arbitrarily, any number of)
distinct fields each violate their structural check, the single 400
response reports a violation for each of them, not only the first one
detected. -/
theorem validator_reports_all_structural_violations (b : QuizSubmissionBody)
    (f g : QField) (hfg : f ≠ g)
    (hf : structuralError b f ≠ none) (hg : structuralError b g ≠ none) :
    ∃ e, validateQuizSubmission b = ValidationOutcome.reject e ∧
      e.field f ≠ none ∧ e.field g ≠ none := by
  refine ⟨validateErrors b, ?_, field_error_of_structural b f hf,
    field_error_of_structural b g hg⟩
  unfold validateQuizSubmission
  rw [if_neg]
  intro hempty
  exact field_error_of_structural b f hf (QuizErrors.isEmpty_field hempty f)

/-- C8 witness: a body whose `score` is not a number and whose
`totalQuestions` is 0 is rejected with entries for both fields. -/
theorem validator_reports_all_structural_violations_witness :
    ∃ e, validateQuizSubmission
        ⟨JsValue.nonNumber, JsValue.num 0, JsValue.num 2, JsValue.undef, JsCategories.undef⟩ =
          ValidationOutcome.reject e ∧
      e.field QField.score ≠ none ∧ e.field QField.totalQuestions ≠ none :=
  validator_reports_all_structural_violations
    ⟨JsValue.nonNumber, JsValue.num 0, JsValue.num 2, JsValue.undef, JsCategories.undef⟩
    QField.score QField.totalQuestions (by decide) (by decide) (by decide)
/-- C1: for a payload whose five structural field checks all pass, the
middleware calls `next()` iff the declared score is within 1 point of
`Math.round((correctAnswers / totalQuestions) * 100)`; a difference
strictly greater than 1 is rejected. -/
theorem validator_accepts_iff_within_tolerance
    (s t c : ℚ) (timeTaken : JsValue) (categories : JsCategories)
    (hs : scoreError (JsValue.num s) = none)
    (ht : totalQuestionsError (JsValue.num t) = none)
    (hc : correctAnswersError (JsValue.num c) (JsValue.num t) = none)
    (htt : timeTakenError timeTaken = none)
    (hcat : categoriesError categories = none) :
    validateQuizSubmission
        ⟨JsValue.num s, JsValue.num t, JsValue.num c, timeTaken, categories⟩ =
      ValidationOutcome.next ↔ |s - (calculatedScore c t : ℚ)| ≤ 1 := by
  have ht0 : t ≠ 0 := by
    simp only [totalQuestionsError] at ht
    split_ifs at ht with h1 h2
    push_neg at h2
    intro h0
    rw [h0] at h2
    norm_num at h2
  by_cases hm : 1 < |s - (calculatedScore c t : ℚ)|
  · have hcm : crossCheckMismatch (JsValue.num s) (JsValue.num t) (JsValue.num c) = true := by
      simp [crossCheckMismatch, ht0, hm]
    rw [validate_next_iff]
    simp [validateErrors, hcm, hs, ht, hc, htt, hcat]
    exact hm
  · have hcm : crossCheckMismatch (JsValue.num s) (JsValue.num t) (JsValue.num c) = false := by
      simp [crossCheckMismatch, ht0, hm]
    rw [validate_next_iff]
    simp [validateErrors, hcm, hs, ht, hc, htt, hcat]
    exact le_of_not_lt hm

/-- C1 witness: score 50 with 2 of 4 correct is accepted (difference 0). -/
theorem validator_accepts_iff_within_tolerance_witness :
    validateQuizSubmission
        ⟨JsValue.num 50, JsValue.num 4, JsValue.num 2, JsValue.undef, JsCategories.undef⟩ =
      ValidationOutcome.next ↔ |(50 : ℚ) - (calculatedScore 2 4 : ℚ)| ≤ 1 :=
  validator_accepts_iff_within_tolerance 50 4 2 JsValue.undef JsCategories.undef
    (by decide) (by decide) (by decide) (by decide) (by decide)

/-- C10: when `timeTaken` and `categories` are both absent (`undefined` or
`null`), the middleware checks nothing about them: the payload is accepted
iff the three mandatory fields pass their structural checks and the score
cross-validation does not fire. -/
theorem optional_fields_skipped (b : QuizSubmissionBody)
    (htt : b.timeTaken = JsValue.undef ∨ b.timeTaken = JsValue.null)
    (hcat : b.categories = JsCategories.undef ∨ b.categories = JsCategories.null) :
    validateQuizSubmission b = ValidationOutcome.next ↔
      (scoreError b.score = none ∧ totalQuestionsError b.totalQuestions = none ∧
       correctAnswersError b.correctAnswers b.totalQuestions = none ∧
       crossCheckMismatch b.score b.totalQuestions b.correctAnswers = false) := by
  have h1 : timeTakenError b.timeTaken = none := by
    rcases htt with h | h <;> rw [h] <;> rfl
  have h2 : categoriesError b.categories = none := by
    rcases hcat with h | h <;> rw [h] <;> rfl
  rw [validate_next_iff]
  cases hcm : crossCheckMismatch b.score b.totalQuestions b.correctAnswers
  · simp [validateErrors, hcm, h1, h2]
  · simp [validateErrors, hcm, h1, h2]

/-- C10 witness: a body with only the three mandatory fields present. -/
theorem optional_fields_skipped_witness :
    validateQuizSubmission
        ⟨JsValue.num 50, JsValue.num 4, JsValue.num 2, JsValue.undef, JsCategories.undef⟩ =
      ValidationOutcome.next ↔
      (scoreError (JsValue.num 50) = none ∧ totalQuestionsError (JsValue.num 4) = none ∧
       correctAnswersError (JsValue.num 2) (JsValue.num 4) = none ∧
       crossCheckMismatch (JsValue.num 50) (JsValue.num 4) (JsValue.num 2) = false) :=
  optional_fields_skipped
    ⟨JsValue.num 50, JsValue.num 4, JsValue.num 2, JsValue.undef, JsCategories.undef⟩
    (Or.inl rfl) (Or.inl rfl)
/-- The leaderboard sort key is transitive. -/
lemma leaderboardLe_trans : ∀ a b c : PersistedResult,
    leaderboardLe a b = true → leaderboardLe b c = true → leaderboardLe a c = true := by
  intro a b c h1 h2
  simp only [leaderboardLe, Bool.or_eq_true, Bool.and_eq_true, decide_eq_true_eq,
    beq_iff_eq] at h1 h2 ⊢
  omega

/-- The leaderboard sort key is total. -/
lemma leaderboardLe_total : ∀ a b : PersistedResult,
    (leaderboardLe a b || leaderboardLe b a) = true := by
  intro a b
  simp only [leaderboardLe, Bool.or_eq_true, Bool.and_eq_true, decide_eq_true_eq, beq_iff_eq]
  omega

unseal List.merge List.mergeSort in
/-- C7: the leaderboard lists a permutation of the matching results ordered
by score descending with ties broken by elapsed time ascending; in
particular, of two results both scoring 80 with times 120 and 90 seconds,
the 90-second one ranks first. -/
theorem leaderboard_sorted_and_tiebreak :
    (∀ (limit : ℕ) (results : List PersistedResult),
      List.Pairwise (fun a b => leaderboardLe a b = true) (getLeaderboard limit results))
    ∧ (∀ results : List PersistedResult, (results.mergeSort leaderboardLe).Perm results)
    ∧ getLeaderboard 10 [⟨80, 120⟩, ⟨80, 90⟩] = [⟨80, 90⟩, ⟨80, 120⟩] := by
  refine ⟨?_, ?_, ?_⟩
  · intro limit results
    exact List.Pairwise.sublist (List.take_sublist _ _)
      (List.sorted_mergeSort leaderboardLe_trans leaderboardLe_total results)
  · intro results
    exact List.mergeSort_perm results leaderboardLe
  · rfl
